import Mathlib

/-!
Verification of the humanlayer thoughts subsystem (hlyr): a shallow
embedding of src/hlyr/src/utils/hooks.ts, src/hlyr/src/utils/symlink.ts,
src/hlyr/src/utils/platform.ts and the link-failure aggregation step of
the thoughts init command.

Strings model JS strings; the filesystem of the hook installer is an
association list of path-to-content pairs; filesystem side effects are
recorded as an explicit event trace; thrown JS values are modelled by an
explicit sum of Error values (carrying error.message) and non-Error
values (carrying their string conversion), and try/catch by an explicit
exception-plus-trace result type.
-/

/-! ## String utilities: JS String.prototype.includes and the regex
match for the text "Version: " followed by digits -/

/-- Boolean prefix test on character lists. -/
def listIsPrefix : List Char → List Char → Bool
  | [], _ => true
  | _ :: _, [] => false
  | a :: as, b :: bs => a == b && listIsPrefix as bs

/-- Boolean infix (substring) test on character lists: leftmost scan. -/
def listContains (needle : List Char) : List Char → Bool
  | [] => listIsPrefix needle []
  | c :: rest => listIsPrefix needle (c :: rest) || listContains needle rest

/-- JS s.includes(sub): substring containment. -/
def strContains (s sub : String) : Bool :=
  listContains sub.data s.data

/-- Maximal leading run of decimal digits: the greedy capture of the
digit group in the version regex. -/
def takeDigits : List Char → List Char
  | [] => []
  | c :: rest => if c.isDigit then c :: takeDigits rest else []

/-- Try to match the text "Version: " followed by at least one digit at
the head of the list; on success return the captured digit run. -/
def matchVersionAt (l : List Char) : Option (List Char) :=
  if listIsPrefix ("Version: ").data l then
    let ds := takeDigits (l.drop 9)
    if ds.isEmpty then none else some ds
  else none

/-- First (leftmost) match of the version regex, returning the captured
digit string, as content.match does in hooks.ts. -/
def findVersion : List Char → Option (List Char)
  | [] => none
  | c :: rest =>
    match matchVersionAt (c :: rest) with
    | some ds => some ds
    | none => findVersion rest

/-- JS parseInt on a string of decimal digits. -/
def digitsToNat (ds : List Char) : Nat :=
  ds.foldl (fun n c => 10 * n + (c.toNat - 48)) 0

/-- path.join of a directory and a file name. -/
def pathJoin (a b : String) : String :=
  a ++ "/" ++ b

/-! ## Filesystem model for the hook installer -/

/-- The filesystem as a map from path to file content; the head entry
wins on lookup, so writing prepends. -/
abbrev FsMap := List (String × String)

/-- Content at a path, if any (models fs.existsSync and fs.readFileSync). -/
def fsLookup (fs : FsMap) (p : String) : Option String :=
  (fs.find? (fun e => e.1 == p)).map (fun e => e.2)

/-- fs.existsSync. -/
def fsExists (fs : FsMap) (p : String) : Bool :=
  (fsLookup fs p).isSome

/-- fs.readFileSync on a path the embedded code only reads after an
existence check (the default is never reached on those paths). -/
def fsRead (fs : FsMap) (p : String) : String :=
  (fsLookup fs p).getD ""

/-- fs.unlinkSync: drop every entry at the path. -/
def fsDelete (fs : FsMap) (p : String) : FsMap :=
  fs.filter (fun e => !(e.1 == p))

/-- fs.writeFileSync: overwrite the path with new content. -/
def fsSet (fs : FsMap) (p c : String) : FsMap :=
  (p, c) :: fsDelete fs p

/-- fs.renameSync src dst (the source only renames an existing path). -/
def fsRename (fs : FsMap) (src dst : String) : FsMap :=
  match fsLookup fs src with
  | none => fs
  | some c => fsSet (fsDelete fs src) dst c

/-- One recorded filesystem side effect of the hook installer. -/
inductive FsEvent where
  | write (p c : String)
  | renameEv (src dst : String)
  | unlinkEv (p : String)
  | chmodEv (p : String)
deriving DecidableEq, Repr

/-! ## Hook installer (hooks.ts) -/

/-- hookNeedsVersionUpdate from hooks.ts: an absent file, or either
content missing an integer version marker, means update; otherwise
strict less-than on the embedded versions. -/
def hookNeedsVersionUpdate (fs : FsMap) (hookPath : String) (newContent : String) : Bool :=
  match fsLookup fs hookPath with
  | none => true
  | some existing =>
    match findVersion existing.data, findVersion newContent.data with
    | some ev, some nv => digitsToNat ev < digitsToNat nv
    | _, _ => true

/-- Result of installGitHook: the updated flag of the source, plus the
resulting filesystem and the trace of file operations performed. -/
structure InstallResult where
  updated : Bool
  fs : FsMap
  events : List FsEvent
deriving DecidableEq, Repr

/-- installGitHook from hooks.ts. The platform string models
process.platform; the event trace records the writeFileSync, renameSync,
unlinkSync and chmodSync calls in order. -/
def installGitHook (platform : String) (fs : FsMap)
    (hooksDir hookName content : String) : InstallResult :=
  let hookPath := pathJoin hooksDir hookName
  let oldHookPath := hookPath ++ ".old"
  let needsUpdate :=
    !(fsExists fs hookPath) ||
    !(strContains (fsRead fs hookPath) "HumanLayer thoughts") ||
    hookNeedsVersionUpdate fs hookPath content
  if needsUpdate = false then
    { updated := false, fs := fs, events := [] }
  else
    let backup : FsMap × List FsEvent :=
      match fsLookup fs hookPath with
      | none => (fs, [])
      | some existing =>
        if strContains existing "HumanLayer thoughts" = false then
          (fsRename fs hookPath oldHookPath, [FsEvent.renameEv hookPath oldHookPath])
        else
          (fsDelete fs hookPath, [FsEvent.unlinkEv hookPath])
    let fs2 := fsSet backup.1 hookPath content
    let events := backup.2 ++ [FsEvent.write hookPath content] ++
      (if platform == "win32" then [] else [FsEvent.chmodEv hookPath])
    { updated := true, fs := fs2, events := events }

/-! ## Directory linker (symlink.ts) -/

/-- A thrown JS value: an Error carrying error.message, or any other
value carrying its string conversion. -/
inductive Thrown where
  | error (msg : String)
  | nonError (str : String)
deriving DecidableEq, Repr

/-- The errorMessage computation of the catch block in symlink.ts:
error.message when the thrown value is an Error, its string conversion
otherwise. -/
def thrownToMessage : Thrown → String
  | Thrown.error m => m
  | Thrown.nonError s => s

/-- LinkResult from symlink.ts. -/
structure LinkResult where
  success : Bool
  type : String
  message : Option String
deriving DecidableEq, Repr

/-- The single fs.symlinkSync call createDirectoryLink issues: its
target, link path and requested link kind. -/
structure LinkCall where
  target : String
  linkPath : String
  linkKind : String
deriving DecidableEq, Repr

/-- createDirectoryLink from symlink.ts. The outcome argument models
what the underlying fs.symlinkSync call does: none for success, some
thrown value for a failure; the catch-all handler maps every thrown
value to a LinkResult. -/
def createDirectoryLink (isWin : Bool) (outcome : Option Thrown)
    (target linkPath : String) : LinkCall × LinkResult :=
  let call : LinkCall :=
    { target := target, linkPath := linkPath,
      linkKind := if isWin then "junction" else "dir" }
  match outcome with
  | none =>
    (call, { success := true, type := if isWin then "junction" else "symlink", message := none })
  | some err =>
    let errorMessage := thrownToMessage err
    if isWin && strContains errorMessage "EPERM" then
      (call, { success := false, type := "junction",
               message := some "Permission denied. Try running as administrator or check if the target directory exists." })
    else
      (call, { success := false, type := if isWin then "junction" else "symlink",
               message := some errorMessage })

/-- One createDirectoryLink call applied to a set of links on disk: a
successful call leaves its link path on disk, a failed one changes
nothing. -/
def createLinkOnFs (isWin : Bool) (fs : List String) (outcome : Option Thrown)
    (target linkPath : String) : List String × LinkResult :=
  let r := (createDirectoryLink isWin outcome target linkPath).2
  (if r.success then linkPath :: fs else fs, r)

/-- Outcome of the link-creation phase of thoughtsInitCommand: the links
on disk afterwards, whether the command exits non-zero, and the failed
links surfaced on the error stream, each with its own message. -/
structure LinkPhaseOut where
  fs : List String
  exitNonZero : Bool
  surfaced : List (String × Option String)
deriving DecidableEq, Repr

/-- The three createDirectoryLink calls of thoughtsInitCommand followed
by its aggregation check: when any of the user, shared or global link
failed, each failed link is reported with its own message and the
process exits non-zero; the check itself performs no filesystem
operation, so links already created stay on disk. -/
def initLinkPhase (isWin : Bool) (fs0 : List String) (oU oS oG : Option Thrown)
    (uT uL sT sL gT gL : String) : LinkPhaseOut :=
  let p1 := createLinkOnFs isWin fs0 oU uT uL
  let p2 := createLinkOnFs isWin p1.1 oS sT sL
  let p3 := createLinkOnFs isWin p2.1 oG gT gL
  if !p1.2.success || !p2.2.success || !p3.2.success then
    { fs := p3.1, exitNonZero := true,
      surfaced :=
        (if !p1.2.success then [("User", p1.2.message)] else []) ++
        (if !p2.2.success then [("Shared", p2.2.message)] else []) ++
        (if !p3.2.success then [("Global", p3.2.message)] else []) }
  else
    { fs := p3.1, exitNonZero := false, surfaced := [] }

/-! ## State inspector (checkExistingSetup in the init command) -/

/-- What lstat reports for an existing path: a plain file, a directory,
or a symbolic link (directory link). -/
inductive FsKind where
  | file
  | dir
  | symlink
deriving DecidableEq, Repr

/-- The classification record returned by checkExistingSetup. The
isOldStructure field is none when the source leaves it undefined. -/
structure SetupStatus where
  exists_ : Bool
  isValid : Bool
  isOldStructure : Option Bool
  message : Option String
deriving DecidableEq, Repr

/-- checkExistingSetup from the thoughts init command. The lfs argument
maps each path to what lstat reports, none when the path does not exist;
config carries the configured user name when a configuration is
present. -/
def checkExistingSetup (lfs : String → Option FsKind) (cwd : String)
    (config : Option String) : SetupStatus :=
  let thoughtsDir := pathJoin cwd "thoughts"
  if (lfs thoughtsDir).isSome = false then
    { exists_ := false, isValid := false, isOldStructure := none, message := none }
  else if (lfs thoughtsDir == some FsKind.dir) = false then
    { exists_ := true, isValid := false, isOldStructure := none,
      message := some "thoughts exists but is not a directory" }
  else if lfs (pathJoin thoughtsDir "local") == some FsKind.symlink then
    { exists_ := true, isValid := false, isOldStructure := some true,
      message := some "thoughts directory uses old structure (needs upgrade)" }
  else
    match config with
    | none =>
      { exists_ := true, isValid := false, isOldStructure := none,
        message := some "thoughts directory exists but configuration is missing" }
    | some user =>
      let hasUser := lfs (pathJoin thoughtsDir user) == some FsKind.symlink
      let hasShared := lfs (pathJoin thoughtsDir "shared") == some FsKind.symlink
      let hasGlobal := lfs (pathJoin thoughtsDir "global") == some FsKind.symlink
      if !hasUser || !hasShared || !hasGlobal then
        { exists_ := true, isValid := false, isOldStructure := none,
          message := some "thoughts directory exists but symlinks are missing or broken" }
      else
        { exists_ := true, isValid := true, isOldStructure := none, message := none }

/-! ## Platform utilities (platform.ts) -/

/-- isWindows from platform.ts over an explicit process.platform. -/
def isWindows (platform : String) : Bool := platform == "win32"

/-- Result of running a piece of JS: the chmod attempts it made, in
order, and either normal completion or a propagating thrown value. -/
structure JsRes (α : Type) where
  trace : List String
  result : Except Thrown α

/-- Normal completion without side effects. -/
def jsOk {α : Type} (a : α) : JsRes α := { trace := [], result := Except.ok a }

/-- Sequencing: a thrown value skips the continuation, side effects
already performed persist. -/
def jsBind {α β : Type} (x : JsRes α) (f : α → JsRes β) : JsRes β :=
  match x.result with
  | Except.error e => { trace := x.trace, result := Except.error e }
  | Except.ok a => { trace := x.trace ++ (f a).trace, result := (f a).result }

/-- A try/catch block whose handler swallows the thrown value and
returns the given default. -/
def jsCatch {α : Type} (x : JsRes α) (d : α) : JsRes α :=
  match x.result with
  | Except.error _ => { trace := x.trace, result := Except.ok d }
  | Except.ok a => { trace := x.trace, result := Except.ok a }

/-- fs.chmodSync: the attempt is recorded, and the environment decides
whether it throws. -/
def chmodSyncJ (fails : String → Bool) (p : String) : JsRes Unit :=
  { trace := [p],
    result := if fails p then Except.error (Thrown.error "Access denied") else Except.ok () }

/-- The execSync chmod -R call of the Unix branch of removeReadOnly. -/
def execSyncChmodR (execFails : Bool) (dirPath : String) : JsRes Unit :=
  { trace := [dirPath],
    result := if execFails then Except.error (Thrown.error "Permission denied") else Except.ok () }

/-- A directory entry as readdirSync with file types reports it: a file
or a subdirectory with its own listing. -/
inductive DirEntry where
  | file (name : String)
  | subdir (name : String) (children : List DirEntry)

/-- The entry loop of removeReadOnlyRecursive in the Windows branch of
removeReadOnly: for each entry, inside one try/catch, set the writable
mode and then recurse into a subdirectory; a thrown value is swallowed
per entry and the loop continues with the next sibling. -/
def walkEntries (fails : String → Bool) : String → List DirEntry → JsRes Unit
  | _, [] => jsOk ()
  | d, DirEntry.file n :: rest =>
    jsBind (jsCatch (chmodSyncJ fails (pathJoin d n)) ())
      (fun _ => walkEntries fails d rest)
  | d, DirEntry.subdir n cs :: rest =>
    jsBind
      (jsCatch
        (jsBind (chmodSyncJ fails (pathJoin d n))
          (fun _ => walkEntries fails (pathJoin d n) cs)) ())
      (fun _ => walkEntries fails d rest)

/-- removeReadOnlyRecursive: return immediately when the directory does
not exist (tree is none), otherwise walk its listing. -/
def removeReadOnlyRecursive (fails : String → Bool) (tree : Option (List DirEntry))
    (dirPath : String) : JsRes Unit :=
  match tree with
  | none => jsOk ()
  | some entries => walkEntries fails dirPath entries

/-- removeReadOnly from platform.ts: on Unix one recursive chmod inside
try/catch, on Windows the recursive walk inside try/catch. -/
def removeReadOnly (platform : String) (execFails : Bool) (fails : String → Bool)
    (tree : Option (List DirEntry)) (dirPath : String) : JsRes Unit :=
  if !(isWindows platform) then
    jsCatch (execSyncChmodR execFails dirPath) ()
  else
    jsCatch (removeReadOnlyRecursive fails tree dirPath) ()

/-- makeFileExecutable from platform.ts: chmod inside try/catch on Unix,
a no-op on Windows. -/
def makeFileExecutable (platform : String) (fails : String → Bool) (filePath : String) : JsRes Unit :=
  if !(isWindows platform) then
    jsCatch (chmodSyncJ fails filePath) ()
  else
    jsOk ()

/-! ## Helper lemmas -/

theorem fsLookup_fsSet_self (fs : FsMap) (p c : String) :
    fsLookup (fsSet fs p c) p = some c := by
  simp [fsLookup, fsSet, List.find?]

theorem fsLookup_fsSet_ne (fs : FsMap) (p c q : String) (h : q ≠ p) :
    fsLookup (fsSet fs p c) q = fsLookup (fsDelete fs p) q := by
  have hpq : (p == q) = false := by
    simp [Ne.symm h]
  simp [fsLookup, fsSet, List.find?, hpq]

theorem fsLookup_fsDelete_ne (fs : FsMap) (p q : String) (h : q ≠ p) :
    fsLookup (fsDelete fs p) q = fsLookup fs q := by
  induction fs with
  | nil => rfl
  | cons a rest ih =>
    by_cases hap : a.1 = p
    · have h1 : (a.1 == p) = true := by simp [hap]
      have h2 : (a.1 == q) = false := by
        simp [hap]
        exact fun hc => h hc.symm
      simp [fsDelete, fsLookup, List.find?, h1, h2] at *
      exact ih
    · have h1 : (a.1 == p) = false := by simp [hap]
      by_cases haq : a.1 = q
      · have h2 : (a.1 == q) = true := by simp [haq]
        simp [fsDelete, fsLookup, List.find?, h1, h2]
      · have h2 : (a.1 == q) = false := by simp [haq]
        simp [fsDelete, fsLookup, List.find?, h1, h2] at *
        exact ih

theorem self_ne_append_old (s : String) : s ≠ s ++ ".old" := by
  intro h
  have hlen := congrArg String.length h
  rw [String.length_append] at hlen
  have h4 : (".old" : String).length = 4 := rfl
  omega

theorem createDirectoryLink_success_some (isWin : Bool) (e : Thrown) (t l : String) :
    (createDirectoryLink isWin (some e) t l).2.success = false := by
  rcases Bool.eq_false_or_eq_true (isWin && strContains (thrownToMessage e) "EPERM") with h | h <;>
    simp [createDirectoryLink, h]

theorem createDirectoryLink_success_none (isWin : Bool) (t l : String) :
    (createDirectoryLink isWin none t l).2.success = true := by
  simp [createDirectoryLink]

theorem jsCatch_unit_ok (x : JsRes Unit) : (jsCatch x ()).result = Except.ok () := by
  unfold jsCatch
  rcases hx : x.result with e | a
  · simp
  · simp

/-! ## Claim C1 -/

/-- Claim C1, counterexample: content that embeds an integer version
marker but lacks the product marker string is reinstalled by every call,
so the second of two identical calls returns updated = true, not
updated = false as the claim states. -/
theorem installGitHook_unmarked_reinstall_cex :
    (findVersion ("Version: 1").data).isSome = true ∧
    (installGitHook "linux" [] "hooks" "pre-commit" "Version: 1").updated = true ∧
    (installGitHook "linux" (installGitHook "linux" [] "hooks" "pre-commit" "Version: 1").fs
      "hooks" "pre-commit" "Version: 1").updated = true ∧
    FsEvent.write (pathJoin "hooks" "pre-commit") "Version: 1" ∈
      (installGitHook "linux" (installGitHook "linux" [] "hooks" "pre-commit" "Version: 1").fs
        "hooks" "pre-commit" "Version: 1").events := by
  decide

/-- Claim C1 as amended: for hook content that contains the product
marker string and embeds an integer version marker, starting from a
state with no file at the hook path, the first installGitHook call
returns updated = true and the second identical call returns
updated = false and performs no file operation at all, in particular no
write. -/
theorem installGitHook_idempotent_marked (platform hooksDir hookName content : String) (fs0 : FsMap)
    (hmark : strContains content "HumanLayer thoughts" = true)
    (hver : (findVersion content.data).isSome = true)
    (habsent : fsLookup fs0 (pathJoin hooksDir hookName) = none) :
    (installGitHook platform fs0 hooksDir hookName content).updated = true ∧
    (installGitHook platform (installGitHook platform fs0 hooksDir hookName content).fs
      hooksDir hookName content).updated = false ∧
    (installGitHook platform (installGitHook platform fs0 hooksDir hookName content).fs
      hooksDir hookName content).events = [] := by
  obtain ⟨d, hd⟩ := Option.isSome_iff_exists.mp hver
  have hex : fsExists fs0 (pathJoin hooksDir hookName) = false := by
    simp [fsExists, habsent]
  have hfs1 : (installGitHook platform fs0 hooksDir hookName content).fs =
      fsSet fs0 (pathJoin hooksDir hookName) content := by
    simp [installGitHook, hex, habsent]
  have hup1 : (installGitHook platform fs0 hooksDir hookName content).updated = true := by
    simp [installGitHook, hex, habsent]
  have hlook : fsLookup (fsSet fs0 (pathJoin hooksDir hookName) content)
      (pathJoin hooksDir hookName) = some content :=
    fsLookup_fsSet_self _ _ _
  have hnvu : hookNeedsVersionUpdate (fsSet fs0 (pathJoin hooksDir hookName) content)
      (pathJoin hooksDir hookName) content = false := by
    simp [hookNeedsVersionUpdate, hlook, hd, Nat.lt_irrefl]
  refine ⟨hup1, ?_, ?_⟩ <;>
    rw [hfs1] <;>
    simp [installGitHook, fsExists, fsRead, hlook, hmark, hnvu]

/-- Claim C1 witness: the amended idempotence at a concrete marked,
versioned content and an empty hooks directory. -/
theorem installGitHook_idempotent_marked_witness :
    (installGitHook "linux" [] "hooks" "pre-commit" "HumanLayer thoughts Version: 2").updated = true ∧
    (installGitHook "linux"
      (installGitHook "linux" [] "hooks" "pre-commit" "HumanLayer thoughts Version: 2").fs
      "hooks" "pre-commit" "HumanLayer thoughts Version: 2").updated = false ∧
    (installGitHook "linux"
      (installGitHook "linux" [] "hooks" "pre-commit" "HumanLayer thoughts Version: 2").fs
      "hooks" "pre-commit" "HumanLayer thoughts Version: 2").events = [] :=
  installGitHook_idempotent_marked "linux" "hooks" "pre-commit"
    "HumanLayer thoughts Version: 2" [] (by decide) (by decide) (by decide)

/-! ## Claim C2 -/

/-- Claim C2: over an existing hook file, when it carries the product
marker and a strictly smaller embedded version than the new content,
installGitHook unlinks it and writes the new content without any rename,
leaving the .old path untouched; when it lacks the product marker,
installGitHook first renames it to the .old path (so its content is
preserved there, never deleted) and then writes the new content. -/
theorem installGitHook_backup_policy (platform hooksDir hookName content e : String) (fs : FsMap)
    (hex : fsLookup fs (pathJoin hooksDir hookName) = some e) :
    (strContains e "HumanLayer thoughts" = true →
      ∀ dv dw, findVersion e.data = some dv → findVersion content.data = some dw →
        digitsToNat dv < digitsToNat dw →
        (installGitHook platform fs hooksDir hookName content).updated = true ∧
        (installGitHook platform fs hooksDir hookName content).events =
          FsEvent.unlinkEv (pathJoin hooksDir hookName) ::
          FsEvent.write (pathJoin hooksDir hookName) content ::
          (if platform == "win32" then [] else [FsEvent.chmodEv (pathJoin hooksDir hookName)]) ∧
        fsLookup (installGitHook platform fs hooksDir hookName content).fs
          (pathJoin hooksDir hookName ++ ".old") =
          fsLookup fs (pathJoin hooksDir hookName ++ ".old")) ∧
    (strContains e "HumanLayer thoughts" = false →
      (installGitHook platform fs hooksDir hookName content).updated = true ∧
      (installGitHook platform fs hooksDir hookName content).events =
        FsEvent.renameEv (pathJoin hooksDir hookName) (pathJoin hooksDir hookName ++ ".old") ::
        FsEvent.write (pathJoin hooksDir hookName) content ::
        (if platform == "win32" then [] else [FsEvent.chmodEv (pathJoin hooksDir hookName)]) ∧
      fsLookup (installGitHook platform fs hooksDir hookName content).fs
        (pathJoin hooksDir hookName ++ ".old") = some e) := by
  have hne : pathJoin hooksDir hookName ++ ".old" ≠ pathJoin hooksDir hookName :=
    (self_ne_append_old (pathJoin hooksDir hookName)).symm
  constructor
  · intro hmark dv dw hdv hdw hlt
    have hnvu : hookNeedsVersionUpdate fs (pathJoin hooksDir hookName) content = true := by
      simp [hookNeedsVersionUpdate, hex, hdv, hdw, hlt]
    refine ⟨?_, ?_, ?_⟩ <;>
      simp [installGitHook, fsExists, fsRead, hex, hmark, hnvu,
        fsLookup_fsSet_ne _ _ _ _ hne, fsLookup_fsDelete_ne _ _ _ hne]
  · intro hmark
    refine ⟨?_, ?_, ?_⟩ <;>
      simp [installGitHook, fsExists, fsRead, fsRename, hex, hmark,
        fsLookup_fsSet_ne _ _ _ _ hne, fsLookup_fsDelete_ne _ _ _ hne,
        fsLookup_fsSet_self]

/-- Claim C2 witness: a stale own hook is replaced with the .old path
left untouched, and a foreign hook survives verbatim at the .old path. -/
theorem installGitHook_backup_policy_witness :
    ((installGitHook "linux" [(pathJoin "hooks" "pre-commit", "HumanLayer thoughts Version: 1")]
        "hooks" "pre-commit" "HumanLayer thoughts Version: 2").updated = true ∧
      fsLookup (installGitHook "linux"
          [(pathJoin "hooks" "pre-commit", "HumanLayer thoughts Version: 1")]
          "hooks" "pre-commit" "HumanLayer thoughts Version: 2").fs
        (pathJoin "hooks" "pre-commit" ++ ".old") =
      fsLookup [(pathJoin "hooks" "pre-commit", "HumanLayer thoughts Version: 1")]
        (pathJoin "hooks" "pre-commit" ++ ".old")) ∧
    ((installGitHook "linux" [(pathJoin "hooks" "pre-commit", "echo hi")]
        "hooks" "pre-commit" "HumanLayer thoughts Version: 1").updated = true ∧
      fsLookup (installGitHook "linux" [(pathJoin "hooks" "pre-commit", "echo hi")]
          "hooks" "pre-commit" "HumanLayer thoughts Version: 1").fs
        (pathJoin "hooks" "pre-commit" ++ ".old") = some "echo hi") := by
  have ha := (installGitHook_backup_policy "linux" "hooks" "pre-commit"
    "HumanLayer thoughts Version: 2" "HumanLayer thoughts Version: 1"
    [(pathJoin "hooks" "pre-commit", "HumanLayer thoughts Version: 1")]
    (by decide)).1 (by decide) (['1']) (['2']) (by decide) (by decide) (by decide)
  have hb := (installGitHook_backup_policy "linux" "hooks" "pre-commit"
    "HumanLayer thoughts Version: 1" "echo hi"
    [(pathJoin "hooks" "pre-commit", "echo hi")] (by decide)).2 (by decide)
  exact ⟨⟨ha.1, ha.2.2⟩, ⟨hb.1, hb.2.2⟩⟩

/-! ## Claim C3 -/

/-- Claim C3: with thoughts an existing directory, a thoughts/local
directory link forces the old-structure classification for every config,
so the old-structure check precedes both the missing-config check and
the per-link checks; once old structure is ruled out, a missing config
yields the missing-configuration classification, any missing or non-link
entry among the user, shared and global links yields the broken
classification with its message, and all three links present yield the
valid classification. -/
theorem checkExistingSetup_classification (lfs : String → Option FsKind) (cwd : String)
    (hdir : lfs (pathJoin cwd "thoughts") = some FsKind.dir) :
    (∀ config, lfs (pathJoin (pathJoin cwd "thoughts") "local") = some FsKind.symlink →
      checkExistingSetup lfs cwd config =
        { exists_ := true, isValid := false, isOldStructure := some true,
          message := some "thoughts directory uses old structure (needs upgrade)" }) ∧
    (lfs (pathJoin (pathJoin cwd "thoughts") "local") ≠ some FsKind.symlink →
      (checkExistingSetup lfs cwd none =
        { exists_ := true, isValid := false, isOldStructure := none,
          message := some "thoughts directory exists but configuration is missing" }) ∧
      (∀ user,
        ((lfs (pathJoin (pathJoin cwd "thoughts") user) == some FsKind.symlink &&
          (lfs (pathJoin (pathJoin cwd "thoughts") "shared") == some FsKind.symlink) &&
          (lfs (pathJoin (pathJoin cwd "thoughts") "global") == some FsKind.symlink)) = false →
          checkExistingSetup lfs cwd (some user) =
            { exists_ := true, isValid := false, isOldStructure := none,
              message := some "thoughts directory exists but symlinks are missing or broken" }) ∧
        ((lfs (pathJoin (pathJoin cwd "thoughts") user) == some FsKind.symlink &&
          (lfs (pathJoin (pathJoin cwd "thoughts") "shared") == some FsKind.symlink) &&
          (lfs (pathJoin (pathJoin cwd "thoughts") "global") == some FsKind.symlink)) = true →
          checkExistingSetup lfs cwd (some user) =
            { exists_ := true, isValid := true, isOldStructure := none, message := none }))) := by
  constructor
  · intro config hloc
    simp [checkExistingSetup, hdir, hloc]
  · intro hloc
    have hlocb : (lfs (pathJoin (pathJoin cwd "thoughts") "local") == some FsKind.symlink) = false := by
      simp [hloc]
    refine ⟨by simp [checkExistingSetup, hdir, hlocb], ?_⟩
    intro user
    constructor
    · intro htriple
      have hcond : (!(lfs (pathJoin (pathJoin cwd "thoughts") user) == some FsKind.symlink) ||
          !(lfs (pathJoin (pathJoin cwd "thoughts") "shared") == some FsKind.symlink) ||
          !(lfs (pathJoin (pathJoin cwd "thoughts") "global") == some FsKind.symlink)) = true := by
        rw [← Bool.not_and, ← Bool.not_and]
        simp [htriple]
      simp [checkExistingSetup, hdir, hlocb, hcond]
    · intro htriple
      have hcond : (!(lfs (pathJoin (pathJoin cwd "thoughts") user) == some FsKind.symlink) ||
          !(lfs (pathJoin (pathJoin cwd "thoughts") "shared") == some FsKind.symlink) ||
          !(lfs (pathJoin (pathJoin cwd "thoughts") "global") == some FsKind.symlink)) = false := by
        rw [← Bool.not_and, ← Bool.not_and]
        simp [htriple]
      simp [checkExistingSetup, hdir, hlocb, hcond]

/-- Claim C3 witness: a concrete old-structure tree missing all three
links and carrying no config is classified as old structure, a tree
missing the shared and global links is classified broken, and a tree
with all three links is classified valid. -/
theorem checkExistingSetup_classification_witness :
    (checkExistingSetup
      (fun p => if p = "/r/thoughts" then some FsKind.dir
        else if p = "/r/thoughts/local" then some FsKind.symlink else none) "/r" none =
      { exists_ := true, isValid := false, isOldStructure := some true,
        message := some "thoughts directory uses old structure (needs upgrade)" }) ∧
    (checkExistingSetup
      (fun p => if p = "/r/thoughts" then some FsKind.dir
        else if p = "/r/thoughts/alice" then some FsKind.symlink else none) "/r" (some "alice") =
      { exists_ := true, isValid := false, isOldStructure := none,
        message := some "thoughts directory exists but symlinks are missing or broken" }) ∧
    (checkExistingSetup
      (fun p => if p = "/r/thoughts" then some FsKind.dir
        else if p = "/r/thoughts" ++ "/alice" then some FsKind.symlink
        else if p = "/r/thoughts/shared" then some FsKind.symlink
        else if p = "/r/thoughts/global" then some FsKind.symlink else none) "/r" (some "alice") =
      { exists_ := true, isValid := true, isOldStructure := none, message := none }) := by
  refine ⟨?_, ?_, ?_⟩
  · exact (checkExistingSetup_classification
      (fun p => if p = "/r/thoughts" then some FsKind.dir
        else if p = "/r/thoughts/local" then some FsKind.symlink else none) "/r"
      (by decide)).1 none (by decide)
  · exact ((checkExistingSetup_classification
      (fun p => if p = "/r/thoughts" then some FsKind.dir
        else if p = "/r/thoughts/alice" then some FsKind.symlink else none) "/r"
      (by decide)).2 (by decide)).2 "alice" |>.1 (by decide)
  · exact ((checkExistingSetup_classification
      (fun p => if p = "/r/thoughts" then some FsKind.dir
        else if p = "/r/thoughts" ++ "/alice" then some FsKind.symlink
        else if p = "/r/thoughts/shared" then some FsKind.symlink
        else if p = "/r/thoughts/global" then some FsKind.symlink else none) "/r"
      (by decide)).2 (by decide)).2 "alice" |>.2 (by decide)

/-! ## Claim C4 -/

/-- Claim C4: a Windows failure whose underlying message contains the
marker EPERM produces a failed result whose message contains both the
text Permission denied and the word administrator; any other failure on
either platform produces a failed result carrying the underlying error
text verbatim. -/
theorem createDirectoryLink_error_messages (isWin : Bool) (err : Thrown) (target linkPath : String) :
    ((isWin && strContains (thrownToMessage err) "EPERM") = true →
      (createDirectoryLink isWin (some err) target linkPath).2.success = false ∧
      ∃ m, (createDirectoryLink isWin (some err) target linkPath).2.message = some m ∧
        strContains m "Permission denied" = true ∧ strContains m "administrator" = true) ∧
    ((isWin && strContains (thrownToMessage err) "EPERM") = false →
      (createDirectoryLink isWin (some err) target linkPath).2.success = false ∧
      (createDirectoryLink isWin (some err) target linkPath).2.message =
        some (thrownToMessage err)) := by
  constructor
  · intro h
    refine ⟨by simp [createDirectoryLink, h],
      "Permission denied. Try running as administrator or check if the target directory exists.",
      by simp [createDirectoryLink, h], by decide, by decide⟩
  · intro h
    exact ⟨by simp [createDirectoryLink, h], by simp [createDirectoryLink, h]⟩

/-- Claim C4 witness: a concrete Windows EPERM failure gets the
administrator guidance, and a concrete Unix failure is passed through
verbatim. -/
theorem createDirectoryLink_error_messages_witness :
    ((true && strContains (thrownToMessage (Thrown.error "EPERM: operation not permitted, symlink")) "EPERM") = true ∧
      ((createDirectoryLink true (some (Thrown.error "EPERM: operation not permitted, symlink"))
          "/t" "/l").2.success = false ∧
        ∃ m, (createDirectoryLink true (some (Thrown.error "EPERM: operation not permitted, symlink"))
          "/t" "/l").2.message = some m ∧
          strContains m "Permission denied" = true ∧ strContains m "administrator" = true)) ∧
    ((false && strContains (thrownToMessage (Thrown.nonError "String error")) "EPERM") = false ∧
      ((createDirectoryLink false (some (Thrown.nonError "String error")) "/t" "/l").2.success = false ∧
        (createDirectoryLink false (some (Thrown.nonError "String error")) "/t" "/l").2.message =
          some (thrownToMessage (Thrown.nonError "String error")))) :=
  ⟨⟨by decide, (createDirectoryLink_error_messages true
      (Thrown.error "EPERM: operation not permitted, symlink") "/t" "/l").1 (by decide)⟩,
   ⟨by decide, (createDirectoryLink_error_messages false
      (Thrown.nonError "String error") "/t" "/l").2 (by decide)⟩⟩

/-! ## Claim C5 -/

/-- Claim C5: for every outcome of the underlying call, a Unix-classified
platform requests a dir-kind link and reports type symlink, and a
Windows-classified platform requests a junction-kind link and reports
type junction, whether or not creation succeeded. -/
theorem createDirectoryLink_platform_kind (outcome : Option Thrown) (target linkPath : String) :
    ((createDirectoryLink false outcome target linkPath).1.linkKind = "dir" ∧
     (createDirectoryLink false outcome target linkPath).2.type = "symlink") ∧
    ((createDirectoryLink true outcome target linkPath).1.linkKind = "junction" ∧
     (createDirectoryLink true outcome target linkPath).2.type = "junction") := by
  rcases outcome with _ | err
  · simp [createDirectoryLink]
  · rcases Bool.eq_false_or_eq_true (strContains (thrownToMessage err) "EPERM") with h | h <;>
      simp [createDirectoryLink, h]

/-! ## Claim C6 -/

/-- Claim C6: the init command's link phase exits non-zero exactly when
some of the three links failed; every failed link is surfaced
individually with its own message; and every successfully created link
is still on disk afterwards, with no rollback. -/
theorem thoughtsInit_link_failure_aggregation (isWin : Bool) (fs0 : List String)
    (oU oS oG : Option Thrown) (uT uL sT sL gT gL : String) :
    ((initLinkPhase isWin fs0 oU oS oG uT uL sT sL gT gL).exitNonZero = true ↔
      (oU.isSome = true ∨ oS.isSome = true ∨ oG.isSome = true)) ∧
    (∀ e, oU = some e →
      ("User", (createDirectoryLink isWin (some e) uT uL).2.message) ∈
        (initLinkPhase isWin fs0 oU oS oG uT uL sT sL gT gL).surfaced) ∧
    (∀ e, oS = some e →
      ("Shared", (createDirectoryLink isWin (some e) sT sL).2.message) ∈
        (initLinkPhase isWin fs0 oU oS oG uT uL sT sL gT gL).surfaced) ∧
    (∀ e, oG = some e →
      ("Global", (createDirectoryLink isWin (some e) gT gL).2.message) ∈
        (initLinkPhase isWin fs0 oU oS oG uT uL sT sL gT gL).surfaced) ∧
    (oU = none → uL ∈ (initLinkPhase isWin fs0 oU oS oG uT uL sT sL gT gL).fs) ∧
    (oS = none → sL ∈ (initLinkPhase isWin fs0 oU oS oG uT uL sT sL gT gL).fs) ∧
    (oG = none → gL ∈ (initLinkPhase isWin fs0 oU oS oG uT uL sT sL gT gL).fs) := by
  rcases oU with _ | eu <;> rcases oS with _ | es <;> rcases oG with _ | eg <;>
    simp [initLinkPhase, createLinkOnFs,
      createDirectoryLink_success_some, createDirectoryLink_success_none]

/-- Claim C6 witness: with the shared link failing and the other two
succeeding, the phase exits non-zero, the shared failure is surfaced
with its message, and the user and global links are left on disk. -/
theorem thoughtsInit_link_failure_aggregation_witness :
    (initLinkPhase false [] none (some (Thrown.error "boom")) none
      "ut" "ul" "st" "sl" "gt" "gl").exitNonZero = true ∧
    ("Shared", (createDirectoryLink false (some (Thrown.error "boom")) "st" "sl").2.message) ∈
      (initLinkPhase false [] none (some (Thrown.error "boom")) none
        "ut" "ul" "st" "sl" "gt" "gl").surfaced ∧
    "ul" ∈ (initLinkPhase false [] none (some (Thrown.error "boom")) none
      "ut" "ul" "st" "sl" "gt" "gl").fs ∧
    "gl" ∈ (initLinkPhase false [] none (some (Thrown.error "boom")) none
      "ut" "ul" "st" "sl" "gt" "gl").fs := by
  have h := thoughtsInit_link_failure_aggregation false [] none (some (Thrown.error "boom")) none
    "ut" "ul" "st" "sl" "gt" "gl"
  exact ⟨h.1.mpr (Or.inr (Or.inl rfl)), h.2.2.1 (Thrown.error "boom") rfl,
    h.2.2.2.2.1 rfl, h.2.2.2.2.2.2 rfl⟩

/-! ## Claim C7 -/

/-- Claim C7: isWindows returns true exactly on the platform identifier
win32, and removeReadOnly and makeFileExecutable complete normally for
every environment, every failure pattern of the underlying chmod calls
included: no thrown value propagates. -/
theorem platform_utils_never_raise (p : String) (execFails : Bool) (fails : String → Bool)
    (tree : Option (List DirEntry)) (dirPath filePath : String) :
    (isWindows p = true ↔ p = "win32") ∧
    (removeReadOnly p execFails fails tree dirPath).result = Except.ok () ∧
    (makeFileExecutable p fails filePath).result = Except.ok () := by
  refine ⟨by simp [isWindows], ?_, ?_⟩
  · unfold removeReadOnly
    rcases Bool.eq_false_or_eq_true (isWindows p) with h | h <;>
      simp [h, jsCatch_unit_ok]
  · unfold makeFileExecutable
    rcases Bool.eq_false_or_eq_true (isWindows p) with h | h <;>
      simp [h, jsCatch_unit_ok, jsOk]

/-! ## Claim C8 -/

/-- Claim C8: content that contains the product marker string but embeds
no integer version marker makes every installGitHook call report
updated = true and write the hook file, whatever is installed, a
byte-identical hook included. -/
theorem installGitHook_unversioned_always_updates (platform hooksDir hookName content : String)
    (fs : FsMap)
    (hmark : strContains content "HumanLayer thoughts" = true)
    (hver : findVersion content.data = none) :
    (installGitHook platform fs hooksDir hookName content).updated = true ∧
    FsEvent.write (pathJoin hooksDir hookName) content ∈
      (installGitHook platform fs hooksDir hookName content).events := by
  rcases hl : fsLookup fs (pathJoin hooksDir hookName) with _ | ex
  · simp [installGitHook, fsExists, hl]
  · rcases hfv : findVersion ex.data with _ | dv <;>
      simp [installGitHook, fsExists, fsRead, hookNeedsVersionUpdate, hl, hver, hfv]

/-- Claim C8 witness: marked content with no version marker is rewritten
even over a byte-identical installed hook. -/
theorem installGitHook_unversioned_always_updates_witness :
    (installGitHook "linux" [(pathJoin "hooks" "pre-commit", "HumanLayer thoughts")]
      "hooks" "pre-commit" "HumanLayer thoughts").updated = true ∧
    FsEvent.write (pathJoin "hooks" "pre-commit") "HumanLayer thoughts" ∈
      (installGitHook "linux" [(pathJoin "hooks" "pre-commit", "HumanLayer thoughts")]
        "hooks" "pre-commit" "HumanLayer thoughts").events :=
  installGitHook_unversioned_always_updates "linux" "hooks" "pre-commit" "HumanLayer thoughts"
    [(pathJoin "hooks" "pre-commit", "HumanLayer thoughts")] (by decide) (by decide)

/-! ## Claim C9 -/

/-- Claim C9, counterexample: on Windows, an Error whose message
contains EPERM yields a result message different from that Error's
message, so the thrown value is not always passed through as the claim
states. -/
theorem createDirectoryLink_eperm_verbatim_cex :
    (createDirectoryLink true (some (Thrown.error "EPERM: operation not permitted, symlink"))
      "/t" "/l").2.success = false ∧
    (createDirectoryLink true (some (Thrown.error "EPERM: operation not permitted, symlink"))
      "/t" "/l").2.message ≠
      some (thrownToMessage (Thrown.error "EPERM: operation not permitted, symlink")) := by
  decide

/-- Claim C9 as amended: createDirectoryLink maps every thrown value,
Error or not, to a failed LinkResult instead of propagating it; the
result message is the Error's message or the string conversion of the
thrown value, except on a Windows-classified platform when that text
contains EPERM, where it is the fixed administrator-guidance message. -/
theorem createDirectoryLink_total_result (isWin : Bool) (err : Thrown) (target linkPath : String) :
    (createDirectoryLink isWin (some err) target linkPath).2.success = false ∧
    (createDirectoryLink isWin (some err) target linkPath).2.message =
      some (if isWin && strContains (thrownToMessage err) "EPERM" then
        "Permission denied. Try running as administrator or check if the target directory exists."
      else thrownToMessage err) := by
  rcases Bool.eq_false_or_eq_true (isWin && strContains (thrownToMessage err) "EPERM") with h | h <;>
    simp [createDirectoryLink, h]

/-! ## Claim C10 -/

/-- Claim C10: in the Windows walk of removeReadOnly, when the mode
change on a directory entry fails, its chmod attempt is recorded but no
path inside that entry's subtree is visited (the recursion sits in the
same per-entry handler as the mode change), and the remaining sibling
entries are processed exactly as they would be without that entry. -/
theorem removeReadOnly_skips_failed_subtree (fails : String → Bool) (d n : String)
    (cs rest : List DirEntry)
    (h : fails (pathJoin d n) = true) :
    (walkEntries fails d (DirEntry.subdir n cs :: rest)).trace =
      pathJoin d n :: (walkEntries fails d rest).trace := by
  simp [walkEntries, jsBind, jsCatch, chmodSyncJ, h]

/-- Claim C10 witness: a locked subdirectory with a child is attempted
and skipped while its sibling file is still processed. -/
theorem removeReadOnly_skips_failed_subtree_witness :
    (fun p => p == "/t/locked") (pathJoin "/t" "locked") = true ∧
    (walkEntries (fun p => p == "/t/locked") "/t"
        [DirEntry.subdir "locked" [DirEntry.file "a"], DirEntry.file "b"]).trace =
      pathJoin "/t" "locked" ::
        (walkEntries (fun p => p == "/t/locked") "/t" [DirEntry.file "b"]).trace :=
  ⟨by decide, removeReadOnly_skips_failed_subtree (fun p => p == "/t/locked") "/t" "locked"
    [DirEntry.file "a"] [DirEntry.file "b"] (by decide)⟩
